import Mathlib

/-!
# Verification of the XR signaling hub against its specification

Shallow embedding of the signaling server (`src/backend/config/env-loader.js`,
the `Server.js` portion) and the browser signaling client
(`src/unnamed/part_001`, `public/js/signaling.js`).

Conventions:
* socket ids are `Nat` (socket.io socket ids are opaque strings);
* JS `Map` objects are embedded as association lists with insertion-order
  preserving `set` (replace in place when the key exists, append otherwise),
  matching JS `Map.set` / `Map.get` / `Map.delete` semantics;
* timestamps (`Date.now()`) are `Nat` milliseconds; JS computes
  `cutoff = now - WINDOW` over floats, but since every stored `ts` is `≥ 0`
  the truncated `Nat` subtraction gives the same eviction decisions;
* socket.io emits are reified as an `Action` trace so that ordering claims
  (peer-left before room teardown, outbox flush before new sends) are
  statements about lists.
-/

namespace XRHub

/-! ## Association-list embedding of JS `Map` -/

/-- JS `Map.set`: replace in place if the key is present, append otherwise
(insertion order is preserved, as for JS `Map`). -/
def alSet {κ α : Type} [DecidableEq κ] : List (κ × α) → κ → α → List (κ × α)
  | [], k, v => [(k, v)]
  | (k', v') :: rest, k, v =>
      if k' = k then (k, v) :: rest else (k', v') :: alSet rest k v

/-- JS `Map.get` (as `Option`). -/
def alGet {κ α : Type} [DecidableEq κ] : List (κ × α) → κ → Option α
  | [], _ => none
  | (k', v') :: rest, k => if k' = k then some v' else alGet rest k

/-- JS `Map.delete`. -/
def alDel {κ α : Type} [DecidableEq κ] (m : List (κ × α)) (k : κ) : List (κ × α) :=
  m.filter (fun e => e.1 ≠ k)

theorem alGet_alSet {κ α : Type} [DecidableEq κ] (m : List (κ × α)) (k : κ) (v : α) :
    alGet (alSet m k v) k = some v := by
  induction m with
  | nil => simp [alSet, alGet]
  | cons e rest ih =>
      by_cases h : e.1 = k
      · simp [alSet, alGet, h]
      · simp [alSet, alGet, h, ih]

theorem alGet_alDel {κ α : Type} [DecidableEq κ] (m : List (κ × α)) (k : κ) :
    alGet (alDel m k) k = none := by
  induction m with
  | nil => simp [alDel, alGet]
  | cons e rest ih =>
      by_cases h : e.1 = k
      · simpa [alDel, alGet, h] using ih
      · simpa [alDel, alGet, h] using ih

theorem alDel_alDel {κ α : Type} [DecidableEq κ] (m : List (κ × α)) (k : κ) :
    alDel (alDel m k) k = alDel m k := by
  simp [alDel, List.filter_filter]

/-! ## Metrics history store

`METRIC_WINDOW_MS` and `pushHist` (env-loader.js lines 420–431):

```js
const METRIC_WINDOW_MS = 24 * 60 * 60 * 1000;
function pushHist(map, xrId, sample) {
  const arr = map.get(xrId) || [];
  arr.push(sample);
  const cutoff = Date.now() - METRIC_WINDOW_MS;
  while (arr.length && arr[0].ts < cutoff) arr.shift();
  map.set(xrId, arr);
}
```
-/

def METRIC_WINDOW_MS : Nat := 24 * 60 * 60 * 1000

/-- `pushHist` on one identity's series: push the sample at the back, then
shift stale entries off the front while the head is older than the window.
`ts` extracts the `.ts` field of the sample type. -/
def pushHist {α : Type} (ts : α → Nat) (arr : List α) (now : Nat) (sample : α) :
    List α :=
  (arr ++ [sample]).dropWhile (fun e => ts e < now - METRIC_WINDOW_MS)

/-- One stored telemetry history entry (the record built in the `telemetry`
handler, env-loader.js lines 1667–1680; numeric fields are `numOrNull`-coerced,
hence `Option Int`). -/
structure TelemetrySample where
  ts : Nat
  connType : String := "none"
  wifiMbps : Option Int := none
  netDownMbps : Option Int := none
  netUpMbps : Option Int := none
  batteryPct : Option Int := none
  cpuPct : Option Int := none
  memUsedMb : Option Int := none
  memTotalMb : Option Int := none
  deviceTempC : Option Int := none
deriving DecidableEq, Repr

/-- Client-supplied telemetry payload fields (before the server stamps `ts`). -/
structure TelemetryIn where
  connType : String := "none"
  wifiMbps : Option Int := none
  netDownMbps : Option Int := none
  netUpMbps : Option Int := none
  batteryPct : Option Int := none
  cpuPct : Option Int := none
  memUsedMb : Option Int := none
  memTotalMb : Option Int := none
  deviceTempC : Option Int := none
deriving DecidableEq, Repr

/-- The `telemetry` handler's history ingestion for one identity: the stored
record's `ts` is stamped server-side with `Date.now()` (= `now`), then pushed
through `pushHist` (env-loader.js lines 1634–1695). -/
def telemetryIngest (hist : List TelemetrySample) (now : Nat) (d : TelemetryIn) :
    List TelemetrySample :=
  pushHist (fun e => e.ts) hist now
    { ts := now, connType := d.connType, wifiMbps := d.wifiMbps,
      netDownMbps := d.netDownMbps, netUpMbps := d.netUpMbps,
      batteryPct := d.batteryPct, cpuPct := d.cpuPct,
      memUsedMb := d.memUsedMb, memTotalMb := d.memTotalMb,
      deviceTempC := d.deviceTempC }

/-- A whole sequence of telemetry ingests for one identity, starting from the
empty series (a fresh key in `telemetryHist`); each item is (Date.now() at the
ingest, client payload). -/
def runTelemetry (items : List (Nat × TelemetryIn)) : List TelemetrySample :=
  items.foldl (fun h it => telemetryIngest h it.1 it.2) []

/-! ## Chat message history

`addToMessageHistory` (env-loader.js lines 591–597) and the replay on
connection (lines 1169–1174):

```js
function addToMessageHistory(message) {
  messageHistory.push({ ...message, id: Date.now(), timestamp: ... });
  if (messageHistory.length > 100) { messageHistory.shift(); }
}
...
if (messageHistory.length > 0) {
  const recent = messageHistory.slice(-10);
  socket.emit('message_history', { type: 'message_history', messages: recent });
}
```
-/

/-- A stored chat message (fields the history keeps; content is opaque to the
buffer logic). -/
structure ChatMsg where
  fromId : Option String := none
  toId : Option String := none
  text : String := ""
  urgent : Bool := false
  sender : String := "unknown"
  id : Nat := 0
  timestamp : Nat := 0
deriving DecidableEq, Repr

/-- `addToMessageHistory`: push at the back; if the length now exceeds 100,
shift the oldest off the front. -/
def addToMessageHistory (hist : List ChatMsg) (m : ChatMsg) : List ChatMsg :=
  let h := hist ++ [m]
  if 100 < h.length then h.tail else h

/-- `messageHistory.slice(-10)`: the 10 most recent messages (all of them if
fewer than 10). -/
def recentMessages (hist : List ChatMsg) : List ChatMsg :=
  hist.drop (hist.length - 10)

/-- The connection handler replays `slice(-10)` only when the buffer is
non-empty (env-loader.js lines 1170–1174); `none` = no `message_history`
emit. -/
def historyReplay (hist : List ChatMsg) : Option (List ChatMsg) :=
  if hist.isEmpty then none else some (recentMessages hist)

/-! ## Client connection state machine (signaling.js)

`SignalingClient._send` (part_001 lines 319–330) and `_onConnect`
(lines 223–239):

```js
_send(event, data) {
  const s = this.socket;
  if (s && this.isConnected) { s.emit(event, data); }
  else {
    if (this._outbox.length < this._OUTBOX_MAX) this._outbox.push({event, data});
    else this._outbox.shift(), this._outbox.push({event, data});
  }
}
_onConnect() {
  this.isConnected = true;
  this.socket.emit('join', this.xrId);
  this.socket.emit('identify', { deviceName: this.deviceName, xrId: this.xrId });
  this.socket.emit('request_device_list');
  try { for (const item of this._outbox) this.socket.emit(item.event, item.data); }
  finally { this._outbox.length = 0; }
  this.listener?.onConnected?.();
}
```
-/

def OUTBOX_MAX : Nat := 200

/-- One socket emit issued by the client; handshake emits are distinguished
from application (`_send`) emits. -/
inductive CEmit (α : Type) where
  | joinE (xrId : String)
  | identifyE (deviceName xrId : String)
  | requestDeviceList
  | msg (event : String) (data : α)
deriving DecidableEq, Repr

/-- The client state relevant to the outbox: connectivity flag and the queued
`{event, data}` pairs. -/
structure ClientState (α : Type) where
  isConnected : Bool := false
  outbox : List (String × α) := []
deriving DecidableEq, Repr

/-- The outbox enqueue step of `_send` (taken when not connected): push if
below capacity, else shift the oldest and push. -/
def outboxEnq {α : Type} (q : List (String × α)) (x : String × α) :
    List (String × α) :=
  if q.length < OUTBOX_MAX then q ++ [x] else q.tail ++ [x]

/-- `SignalingClient._send`: emit immediately while connected, otherwise
enqueue into the bounded outbox. -/
def clientSend {α : Type} (st : ClientState α) (event : String) (data : α) :
    ClientState α × List (CEmit α) :=
  if st.isConnected then (st, [CEmit.msg event data])
  else ({ st with outbox := outboxEnq st.outbox (event, data) }, [])

/-- Issue a list of `_send` calls in order, collecting emits. -/
def clientSendAll {α : Type} (st : ClientState α) (msgs : List (String × α)) :
    ClientState α × List (CEmit α) :=
  msgs.foldl
    (fun acc m =>
      let r := clientSend acc.1 m.1 m.2
      (r.1, acc.2 ++ r.2))
    (st, [])

/-- `SignalingClient._onConnect`: set connected, emit the re-announcement
handshake (`join`, `identify`, `request_device_list`), then flush the outbox
in FIFO order and clear it.  The `onConnected` listener (the hook from which
new application sends can originate) runs only after the flush. -/
def clientOnConnect {α : Type} (st : ClientState α) (deviceName xrId : String) :
    ClientState α × List (CEmit α) :=
  ({ isConnected := true, outbox := [] },
   [CEmit.joinE xrId, CEmit.identifyE deviceName xrId, CEmit.requestDeviceList]
     ++ st.outbox.map (fun m => CEmit.msg m.1 m.2))

/-- The connect transition followed by the application sends issued from the
`onConnected` callback in the same tick: the full emit trace in order. -/
def clientConnectTick {α : Type} (st : ClientState α) (deviceName xrId : String)
    (appSends : List (String × α)) : ClientState α × List (CEmit α) :=
  let r := clientOnConnect st deviceName xrId
  let r2 := clientSendAll r.1 appSends
  (r2.1, r.2 ++ r2.2)

/-! ## Server state

Per-socket `socket.data` fields and the process-local maps declared in
env-loader.js lines 404–422 plus the socket.io adapter's room table. -/

/-- `socket.data` as the handlers use it. -/
structure SockData where
  xrId : Option String := none
  deviceName : Option String := none
  connectedAt : Option Nat := none
  roomId : Option String := none
deriving DecidableEq, Repr

/-- One stored quality-history entry (env-loader.js lines 1367–1373; the
numeric fields are `numOrNull`-coerced, `ts` is taken from the sample). -/
structure QSample where
  ts : Nat
  jitterMs : Option Int := none
  rttMs : Option Int := none
  lossPct : Option Int := none
  bitrateKbps : Option Int := none
deriving DecidableEq, Repr

/-- The process-local server state touched by the handlers under study.
`sockets` is `io.sockets.sockets` restricted to data; `rooms` is the adapter's
room table (`io.sockets.adapter.rooms`), member lists in join order. -/
structure ServerState where
  sockets : List (Nat × SockData) := []
  clients : List (String × Nat) := []
  onlineDevices : List (String × Nat) := []
  desktopClients : List (String × Nat) := []
  rooms : List (String × List Nat) := []
  qualityHist : List (String × List QSample) := []
deriving DecidableEq, Repr

/-- Emit payloads appearing in the handlers under study. -/
inductive Payload where
  | emptyP
  | deviceList (ids : List String)
  | duplicateId (xrId : String) (holderName : String) (since : Option Nat)
      (holderSid : Nat)
  | peerLeft (xrId : String) (roomId : String)
  | roomJoined (roomId : String) (members : List String)
  | roomUpdate (pairs : List (String × String))
  | pairError (message : String)
  | signalFwd (type : String) (fromId : Option String) (data : String)
  | metricsUpdate (xrId : String) (quality : List QSample)
  | qualityBroadcast (deviceId : String) (samples : List QSample)
  | errorMsg (message : String)
deriving DecidableEq, Repr

/-- One observable server action: a socket.io emit (with its addressing mode)
or a connection-lifecycle step.  `leaveAllRooms` marks the point where
socket.io structurally removes the closing socket from its rooms (after the
`disconnecting` callbacks have run). -/
inductive Action where
  | emitToSocket (sid : Nat) (event : String) (p : Payload)
  | emitToRoom (roomId : String) (event : String) (p : Payload)
  | emitToRoomExcept (sid : Nat) (roomId : String) (event : String) (p : Payload)
  | emitAll (event : String) (p : Payload)
  | emitBroadcast (sid : Nat) (event : String) (p : Payload)
  | disconnect (sid : Nat)
  | leaveAllRooms (sid : Nat)
deriving DecidableEq, Repr

/-- The payload an action emits (`none` for non-emit actions). -/
def Action.payloadOf : Action → Option Payload
  | .emitToSocket _ _ p => some p
  | .emitToRoom _ _ p => some p
  | .emitToRoomExcept _ _ _ p => some p
  | .emitAll _ p => some p
  | .emitBroadcast _ _ p => some p
  | .disconnect _ => none
  | .leaveAllRooms _ => none

/-- The event name an action emits (`none` for non-emit actions). -/
def Action.eventName : Action → Option String
  | .emitToSocket _ ev _ => some ev
  | .emitToRoom _ ev _ => some ev
  | .emitToRoomExcept _ _ ev _ => some ev
  | .emitAll ev _ => some ev
  | .emitBroadcast _ ev _ => some ev
  | .disconnect _ => none
  | .leaveAllRooms _ => none

/-! ## State helpers -/

/-- Look up `socket.data` for a socket id. -/
def getSockData (st : ServerState) (sid : Nat) : Option SockData :=
  alGet st.sockets sid

/-- Update one socket's `socket.data` (no-op if the socket is not present). -/
def setSockData (st : ServerState) (sid : Nat) (f : SockData → SockData) :
    ServerState :=
  { st with
    sockets := st.sockets.map (fun e => if e.1 = sid then (e.1, f e.2) else e) }

/-- The adapter's member list for a room (empty when the room is absent). -/
def roomMembers (st : ServerState) (roomId : String) : List Nat :=
  (alGet st.rooms roomId).getD []

/-- `socket.join(roomId)`: insert the socket into the room's member set
(idempotent, join order preserved). -/
def joinRoom (st : ServerState) (roomId : String) (sid : Nat) : ServerState :=
  let ms := roomMembers st roomId
  if sid ∈ ms then st
  else { st with rooms := alSet st.rooms roomId (ms ++ [sid]) }

/-- The rooms a socket is currently in (`socket.rooms`). -/
def socketRooms (st : ServerState) (sid : Nat) : List String :=
  (st.rooms.filter (fun r => sid ∈ r.2)).map (fun r => r.1)

/-- `roomOf(xrId)` = the identity-addressed room `xr:<xrId>`. -/
def roomOf (xrId : String) : String := "xr:" ++ xrId

/-! ## String primitives

JS string comparison (`Array.prototype.sort` on two strings), `startsWith`
and `toLowerCase().includes(...)` are embedded over character lists so that
every definition evaluates by reduction. -/

/-- Code-unit lexicographic `<` on character lists (JS string comparison;
identical to codepoint order for these ASCII identifiers). -/
def charsLt : List Char → List Char → Bool
  | [], [] => false
  | [], _ :: _ => true
  | _ :: _, [] => false
  | a :: as, b :: bs =>
      if a.toNat < b.toNat then true
      else if b.toNat < a.toNat then false
      else charsLt as bs

/-- JS `a < b` on strings. -/
def strLt (a b : String) : Bool := charsLt a.toList b.toList

/-- JS `s.startsWith(p)`. -/
def strStartsWith (s p : String) : Bool := p.toList.isPrefixOf s.toList

/-- Does `p` occur as a contiguous run inside the character list? -/
def hasSubstr (p : List Char) : List Char → Bool
  | [] => p.isEmpty
  | c :: rest => p.isPrefixOf (c :: rest) || hasSubstr p rest

/-- JS `deviceName.toLowerCase().includes('desktop')`. -/
def isDesktopName (deviceName : String) : Bool :=
  hasSubstr ("desktop".toList) (deviceName.toList.map Char.toLower)

/-! ## Pairing tables and helpers (env-loader.js lines 434–489) -/

/-- `normalizePair(a,b)`: sort the two ids and join with `|` (JS default sort
is lexicographic on the two strings). -/
def normalizePair (a b : String) : String :=
  if strLt b a then b ++ "|" ++ a else a ++ "|" ++ b

/-- `allowedPairs`: the static allow-list holds exactly one normalized pair. -/
def allowedPairs : List String := [normalizePair "XR-1234" "XR-1238"]

/-- `isPairAllowed(a,b)` = `allowedPairs.has(normalizePair(a,b))`. -/
def isPairAllowed (a b : String) : Bool :=
  allowedPairs.contains (normalizePair a b)

/-- `PAIRINGS_MAP`: the sole allowed partner of each identity. -/
def pairingsMap (deviceId : String) : Option String :=
  if deviceId = "XR-1234" then some "XR-1238"
  else if deviceId = "XR-1238" then some "XR-1234"
  else none

/-- `getRoomIdForPair(a,b)` = `pair:<min>:<max>`. -/
def getRoomIdForPair (a b : String) : String :=
  if strLt b a then "pair:" ++ b ++ ":" ++ a else "pair:" ++ a ++ ":" ++ b

/-- `listRoomMembers(roomId)`: each member socket's `data.xrId`, falling back
to the socket id when unidentified. -/
def listRoomMembers (st : ServerState) (roomId : String) : List String :=
  (roomMembers st roomId).map
    (fun sid => (((getSockData st sid).bind (fun d => d.xrId)).getD (toString sid)))

/-- `collectPairs()`: for every `pair:`-prefixed room with ≥ 2 members, the
normalized pair of its first two member identities. -/
def collectPairs (st : ServerState) : List (String × String) :=
  st.rooms.filterMap
    (fun r =>
      if strStartsWith r.1 "pair:" then
        match listRoomMembers st r.1 with
        | a :: b :: _ => some (if strLt b a then (b, a) else (a, b))
        | _ => none
      else none)

/-- The identities visible in a socket snapshot (abstracts the
`buildDeviceListGlobal` byId map keyed on `xrId`); claims only inspect this
payload for emptiness. -/
def deviceIdsOf (sockets : List (Nat × SockData)) : List String :=
  (sockets.filterMap (fun s => s.2.xrId)).eraseDups

/-- The `device_list` payload built from the current local state. -/
def devListPayload (st : ServerState) : Payload :=
  Payload.deviceList (deviceIdsOf st.sockets)

/-! ## Cluster-wide socket snapshot (env-loader.js lines 155–178)

```js
async function safeFetchSockets(io, namespace = "/") {
  const local = Array.from(nsp.sockets?.values?.() || []);
  if (!supportsGlobal) return local;
  try {
    const guard = ... reject after 750 ms ...;
    const globalSockets = await Promise.race([nsp.fetchSockets(), guard]);
    const byId = new Map(local.map(s => [s.id, s]));
    for (const s of globalSockets) byId.set(s.id, s);
    return Array.from(byId.values());
  } catch (e) { return local; }
}
```
-/

/-- The 750 ms guard timeout on the cluster-wide fan-out. -/
def FETCH_GUARD_MS : Nat := 750

/-- Merge the local snapshot with the cluster fan-out result by socket id
(a JS `Map` seeded from `local`, then `set` per global socket). -/
def mergeById (localSockets globalSockets : List (Nat × SockData)) :
    List (Nat × SockData) :=
  globalSockets.foldl (fun acc s => alSet acc s.1 s.2) localSockets

/-- `safeFetchSockets`: `globalResult = none` models the fan-out not
completing within `FETCH_GUARD_MS` (the guard rejects, or the adapter does not
support a global fetch) — the snapshot degrades to the local sockets only. -/
def safeFetchSockets (localSockets : List (Nat × SockData))
    (globalResult : Option (List (Nat × SockData))) : List (Nat × SockData) :=
  match globalResult with
  | none => localSockets
  | some gs => mergeById localSockets gs

/-! ## `join` handler (env-loader.js lines 1191–1206)

```js
socket.on('join', (xrId) => {
  socket.data.xrId = xrId;
  socket.join(roomOf(xrId));
  clients.set(xrId, socket);
  onlineDevices.set(xrId, socket);
  ... socket.emit('device_list', list); await broadcastDeviceList(); ...
});
```
There is no conflict check: an existing registration for `xrId` is silently
replaced in the maps. -/

def joinHandler (st : ServerState) (sid : Nat) (xrId : String) :
    ServerState × List Action :=
  let st1 := setSockData st sid (fun d => { d with xrId := some xrId })
  let st2 := joinRoom st1 (roomOf xrId) sid
  let st3 := { st2 with
    clients := alSet st2.clients xrId sid,
    onlineDevices := alSet st2.onlineDevices xrId sid }
  (st3,
   [Action.emitToSocket sid "device_list" (devListPayload st3),
    Action.emitAll "device_list" (devListPayload st3)])

/-! ## `tryAutoPair` (env-loader.js lines 491–524) -/

/-- `tryAutoPair(deviceId)`: look up the sole partner, require both sockets
live in `clients`, the pair allow-listed, and the pair room below 2 members;
then join both sockets, set `data.roomId` on both, emit `room_joined` to the
room and `room_update` to everyone.  Returns the `Bool` result too. -/
def tryAutoPair (st : ServerState) (deviceId : String) :
    ServerState × List Action × Bool :=
  match pairingsMap deviceId with
  | none => (st, [], false)
  | some partnerId =>
    match alGet st.clients deviceId, alGet st.clients partnerId with
    | some meSid, some partnerSid =>
      if isPairAllowed deviceId partnerId then
        let roomId := getRoomIdForPair deviceId partnerId
        if 2 ≤ (roomMembers st roomId).length then (st, [], false)
        else
          let st1 := joinRoom st roomId meSid
          let st2 := joinRoom st1 roomId partnerSid
          let st3 := setSockData st2 meSid (fun d => { d with roomId := some roomId })
          let st4 := setSockData st3 partnerSid (fun d => { d with roomId := some roomId })
          let members := listRoomMembers st4 roomId
          (st4,
           [Action.emitToRoom roomId "room_joined" (Payload.roomJoined roomId members),
            Action.emitAll "room_update" (Payload.roomUpdate (collectPairs st4))],
           true)
      else (st, [], false)
    | _, _ => (st, [], false)

/-! ## `pair_with` handler (env-loader.js lines 1317–1346)

The manual pairing path: allow-list gated, but with **no** room-capacity
check — the caller joins the pair room unconditionally once allowed. -/

def pairWith (st : ServerState) (sid : Nat) (peerId : Option String) :
    ServerState × List Action :=
  match ((getSockData st sid).bind (fun d => d.xrId)), peerId with
  | some me, some peer =>
      if isPairAllowed me peer then
        let roomId := getRoomIdForPair me peer
        let st1 := joinRoom st roomId sid
        let st2 := setSockData st1 sid (fun d => { d with roomId := some roomId })
        let members := listRoomMembers st2 roomId
        (st2,
         [Action.emitToRoom roomId "room_joined" (Payload.roomJoined roomId members),
          Action.emitAll "room_update" (Payload.roomUpdate (collectPairs st2))])
      else (st, [Action.emitToSocket sid "pair_error" (Payload.pairError "Pairing not allowed")])
  | _, _ =>
      (st, [Action.emitToSocket sid "pair_error" (Payload.pairError "Identify and provide peerId")])

/-! ## `identify` handler (env-loader.js lines 1210–1285)

`snapshot` is the result of `safeFetchSockets` (local-merged-global, or local
only on fan-out timeout); `now` is `Date.now()`.  The delayed `device_list`
re-broadcast scheduled with `setTimeout(..., 1200)` is asynchronous and
mutates no state, so it is not part of the synchronous action trace. -/

def identify (st : ServerState) (sid : Nat) (deviceName xrId : String)
    (snapshot : List (Nat × SockData)) (now : Nat) : ServerState × List Action :=
  match snapshot.find? (fun s => s.1 ≠ sid ∧ s.2.xrId = some xrId) with
  | some holder =>
      -- Duplicate guard: blackout presence, tell the claimant, drop it.
      (st,
       [Action.emitAll "device_list" (Payload.deviceList []),
        Action.emitToSocket sid "duplicate_id"
          (Payload.duplicateId xrId (holder.2.deviceName.getD "Unknown")
            holder.2.connectedAt holder.1),
        Action.disconnect sid])
  | none =>
      -- Accept: record data, join the identity room, register, maybe pair.
      let st1 := setSockData st sid
        (fun d => { d with deviceName := some deviceName, xrId := some xrId,
                           connectedAt := some now })
      let st2 := joinRoom st1 (roomOf xrId) sid
      let st3 := { st2 with
        clients := alSet st2.clients xrId sid,
        onlineDevices := alSet st2.onlineDevices xrId sid }
      let st4 :=
        if isDesktopName deviceName ∨ xrId = "XR-1238" then
          { st3 with desktopClients := alSet st3.desktopClients xrId sid }
        else st3
      let listActs :=
        [Action.emitToSocket sid "device_list" (devListPayload st4),
         Action.emitAll "device_list" (devListPayload st4)]
      match (getSockData st4 sid).bind (fun d => d.roomId) with
      | some _ => (st4, listActs)
      | none =>
          let r := tryAutoPair st4 xrId
          (r.1, listActs ++ r.2.1)

/-! ## `signal` handler (env-loader.js lines 1349–1412) -/

/-- A parsed `signal` payload.  `data` is the opaque nested payload;
`deviceId`/`samples` are the fields of the quality-feed shape. -/
structure SignalMsg where
  type : String
  fromId : Option String := none
  toId : Option String := none
  data : String := ""
  deviceId : Option String := none
  samples : List QSample := []
deriving DecidableEq, Repr

/-- `socket.on('signal')`: quality-feed envelopes are intercepted and diverted
to the metrics store (history push + `metrics_update` to the metrics room +
`webrtc_quality_update` to everyone) and never fall through to routing; all
other envelopes route by explicit `to` (identity room) or by the sender's
current pair room, forwarding `{ type, from, data }` as taken from the client
payload. -/
def signalHandler (st : ServerState) (sid : Nat) (msg : SignalMsg) (now : Nat) :
    ServerState × List Action :=
  if msg.type = "webrtc_quality_update" then
    match msg.deviceId with
    | some deviceId =>
        if msg.samples ≠ [] then
          let oldArr := (alGet st.qualityHist deviceId).getD []
          let newArr := msg.samples.foldl
            (fun arr s => pushHist (fun e => e.ts) arr now s) oldArr
          ({ st with qualityHist := alSet st.qualityHist deviceId newArr },
           [Action.emitToRoom ("metrics:" ++ deviceId) "metrics_update"
              (Payload.metricsUpdate deviceId msg.samples),
            Action.emitAll "webrtc_quality_update"
              (Payload.qualityBroadcast deviceId msg.samples)])
        else (st, [])
    | none => (st, [])
  else
    match msg.toId with
    | some t =>
        (st, [Action.emitToRoom (roomOf t) "signal"
               (Payload.signalFwd msg.type msg.fromId msg.data)])
    | none =>
        match (getSockData st sid).bind (fun d => d.roomId) with
        | some roomId =>
            (st, [Action.emitToRoomExcept sid roomId "signal"
                   (Payload.signalFwd msg.type msg.fromId msg.data)])
        | none =>
            (st, [Action.emitToSocket sid "signal_error"
                   (Payload.errorMsg "No room joined and no to specified")])

/-! ## Disconnect sequence (env-loader.js lines 1757–1803)

socket.io fires `disconnecting` while the socket is still in its rooms, then
removes it from every room, then fires `disconnect`.  The code relies on that
ordering ("Notify peers *before* Socket.IO removes the socket from rooms"). -/

/-- The `disconnecting` handler: for every `pair:` room the socket is in,
notify the rest of the room with `peer_left { xrId, roomId }`; nothing is
emitted when the socket never identified. -/
def disconnectingActions (st : ServerState) (sid : Nat) : List Action :=
  match (getSockData st sid).bind (fun d => d.xrId) with
  | none => []
  | some xrId =>
      (socketRooms st sid).filterMap
        (fun roomId =>
          if strStartsWith roomId "pair:" then
            some (Action.emitToRoomExcept sid roomId "peer_left"
                   (Payload.peerLeft xrId roomId))
          else none)

/-- socket.io's structural teardown: the socket leaves every room. -/
def removeFromAllRooms (st : ServerState) (sid : Nat) : ServerState :=
  { st with rooms := st.rooms.map (fun r => (r.1, r.2.filter (fun m => m ≠ sid))) }

/-- The `disconnect` handler's map cleanup (lines 1779–1790) plus the socket
record itself going away; emits a fresh `device_list` and (via the deferred
`broadcastPairs`) a `room_update`. -/
def disconnectCleanup (st : ServerState) (sid : Nat) : ServerState × List Action :=
  let st1 :=
    match (getSockData st sid).bind (fun d => d.xrId) with
    | none => st
    | some xrId =>
        let st' := { st with
          clients := alDel st.clients xrId,
          onlineDevices := alDel st.onlineDevices xrId }
        if alGet st'.desktopClients xrId = some sid then
          { st' with desktopClients := alDel st'.desktopClients xrId }
        else st'
  let st2 := { st1 with sockets := st1.sockets.filter (fun s => s.1 ≠ sid) }
  (st2,
   [Action.emitAll "device_list" (devListPayload st2),
    Action.emitAll "room_update" (Payload.roomUpdate (collectPairs st2))])

/-- The whole close sequence of one socket, as an action trace:
`disconnecting` emits, then the structural room removal, then the `disconnect`
cleanup and its broadcasts. -/
def fullDisconnect (st : ServerState) (sid : Nat) : ServerState × List Action :=
  let pre := disconnectingActions st sid
  let st1 := removeFromAllRooms st sid
  let r := disconnectCleanup st1 sid
  (r.1, pre ++ Action.leaveAllRooms sid :: r.2)

/-! ## Concrete fixtures used by witnesses and counterexamples -/

/-- A default-valued chat message. -/
def chatMsg0 : ChatMsg := {}

/-- A default-valued telemetry payload. -/
def telIn0 : TelemetryIn := {}

/-- Two sockets, socket 1 identified as `X1` and registered; socket 2 fresh. -/
def dupState : ServerState :=
  { sockets := [(1, { xrId := some "X1", deviceName := some "Headset",
                      connectedAt := some 5 }), (2, {})],
    clients := [("X1", 1)] }

/-- The local socket set of a process that only hosts the fresh socket 2
(an identity holder exists on a remote process but is not visible locally). -/
def timeoutLocal : List (Nat × SockData) := [(2, {})]

/-- The server state of that process. -/
def timeoutState : ServerState := { sockets := timeoutLocal }

/-- Sockets 1 and 2 identified as the allow-listed pair and auto-paired. -/
def pairedState : ServerState :=
  (tryAutoPair
    (joinHandler (joinHandler { sockets := [(1, {}), (2, {})] } 1 "XR-1234").1
      2 "XR-1238").1
    "XR-1234").1

/-- Three sockets set their identities through the unguarded `join` event
(socket 3 reusing socket 1's identity), then each requests manual pairing. -/
def overfullState : ServerState :=
  (pairWith
    (pairWith
      (pairWith
        (joinHandler
          (joinHandler
            (joinHandler { sockets := [(1, {}), (2, {}), (3, {})] } 1 "XR-1234").1
            2 "XR-1238").1
          3 "XR-1234").1
        1 (some "XR-1238")).1
      2 (some "XR-1234")).1
    3 (some "XR-1238")).1

/-- One socket identified as `XR-1234`. -/
def spoofState : ServerState := { sockets := [(1, { xrId := some "XR-1234" })] }

/-- Socket 1 holds the registration for `XR-1234`; socket 2 is fresh. -/
def replacedState : ServerState :=
  { sockets := [(1, { xrId := some "XR-1234" }), (2, {})],
    clients := [("XR-1234", 1)] }

/-- A spoofed signal envelope: client-chosen `from` that differs from the
sender's registered identity. -/
def spoofMsg : SignalMsg :=
  { type := "offer", fromId := some "SPOOF", toId := some "XR-1238" }

/-- A quality-feed envelope with one sample. -/
def qualityMsg : SignalMsg :=
  { type := "webrtc_quality_update", deviceId := some "XR-1234",
    samples := [{ ts := 50 }] }

/-- A pair room already occupied by its two member sockets. -/
def fullRoomState : ServerState :=
  { clients := [("XR-1234", 1), ("XR-1238", 2)],
    rooms := [("pair:XR-1234:XR-1238", [1, 2])] }

/-! ## General helper lemmas -/

theorem alGet_mem {κ α : Type} [DecidableEq κ] {m : List (κ × α)} {k : κ} {v : α}
    (h : alGet m k = some v) : (k, v) ∈ m := by
  induction m with
  | nil => simp [alGet] at h
  | cons e rest ih =>
      obtain ⟨e1, e2⟩ := e
      by_cases he : e1 = k
      · subst he
        simp [alGet] at h
        subst h
        exact List.mem_cons_self _ _
      · simp [alGet, he] at h
        exact List.mem_cons_of_mem _ (ih h)

theorem alGet_map_val {κ α β : Type} [DecidableEq κ] (m : List (κ × α))
    (f : α → β) (k : κ) :
    alGet (m.map (fun e => (e.1, f e.2))) k = (alGet m k).map f := by
  induction m with
  | nil => simp [alGet]
  | cons e rest ih =>
      by_cases he : e.1 = k
      · simp [alGet, he]
      · simp [alGet, he, ih]

/-- Every element surviving `dropWhile (ts · < cutoff)` in a `ts`-sorted list
is at least `cutoff`. -/
theorem dropWhile_all_ge {α : Type} (ts : α → Nat) (cutoff : Nat) :
    ∀ l : List α, l.Pairwise (fun a b => ts a ≤ ts b) →
      ∀ e ∈ l.dropWhile (fun e => ts e < cutoff), cutoff ≤ ts e := by
  intro l
  induction l with
  | nil => intro _ e he; simp at he
  | cons a rest ih =>
      intro hp e he
      rw [List.dropWhile_cons] at he
      by_cases ha : ts a < cutoff
      · simp [ha] at he
        exact ih hp.of_cons e he
      · simp [ha] at he
        rcases he with rfl | he
        · omega
        · have := (List.pairwise_cons.mp hp).1 e he
          omega

theorem mem_of_mem_dropWhile {α : Type} {p : α → Bool} {l : List α} {e : α}
    (h : e ∈ l.dropWhile p) : e ∈ l :=
  (List.dropWhile_sublist p (l := l)).mem h

/-! ## C10: chat history bounds -/

/-- C10: the chat history buffer never exceeds 100 messages (on overflow the
oldest is shifted off the front), and the `message_history` replay sent to a
newly connected client is exactly the ≤ 10 most recent messages. -/
theorem messageHistory_bounded (hist : List ChatMsg) (m : ChatMsg)
    (h : hist.length ≤ 100) :
    (addToMessageHistory hist m).length ≤ 100 ∧
    (hist.length = 100 → addToMessageHistory hist m = hist.tail ++ [m]) ∧
    ∀ r, historyReplay (addToMessageHistory hist m) = some r →
      r.length ≤ 10 ∧
      r = (addToMessageHistory hist m).drop ((addToMessageHistory hist m).length - 10) := by
  refine ⟨?_, ?_, ?_⟩
  · unfold addToMessageHistory
    by_cases hl : 100 < (hist ++ [m]).length
    · simp only [hl, if_true]
      simp at hl ⊢
      omega
    · simp only [hl, if_false]
      simp at hl ⊢
      omega
  · intro h100
    unfold addToMessageHistory
    have hl : 100 < (hist ++ [m]).length := by simp [h100]
    simp only [hl, if_true]
    cases hist with
    | nil => simp at h100
    | cons a rest => simp
  · intro r hr
    unfold historyReplay at hr
    by_cases he : (addToMessageHistory hist m).isEmpty
    · simp [he] at hr
    · simp only [he, if_false] at hr
      cases hr
      constructor
      · unfold recentMessages
        rw [List.length_drop]
        omega
      · rfl

/-- C10 witness: a full buffer of 100 messages stays at 100 after one more
add, the oldest is dropped, and the replay is the last 10. -/
theorem messageHistory_bounded_witness :
    (List.replicate 100 chatMsg0).length ≤ 100 ∧
    ((addToMessageHistory (List.replicate 100 chatMsg0) chatMsg0).length ≤ 100 ∧
     ((List.replicate 100 chatMsg0).length = 100 →
        addToMessageHistory (List.replicate 100 chatMsg0) chatMsg0 =
          (List.replicate 100 chatMsg0).tail ++ [chatMsg0]) ∧
     ∀ r, historyReplay (addToMessageHistory (List.replicate 100 chatMsg0) chatMsg0)
            = some r →
       r.length ≤ 10 ∧
       r = (addToMessageHistory (List.replicate 100 chatMsg0) chatMsg0).drop
             ((addToMessageHistory (List.replicate 100 chatMsg0) chatMsg0).length - 10)) :=
  ⟨by simp, messageHistory_bounded (List.replicate 100 chatMsg0) chatMsg0 (by simp)⟩

/-! ## C5: telemetry series retention bounded by the 24 h window -/

/-- After one `pushHist` of a server-stamped sample into a sorted series whose
entries are all ≤ `now`, no surviving entry is older than the window, and the
result is again sorted with entries ≤ `now`. -/
theorem pushHist_window_step {α : Type} (ts : α → Nat) (arr : List α)
    (now : Nat) (s : α)
    (hsort : arr.Pairwise (fun a b => ts a ≤ ts b))
    (hub : ∀ e ∈ arr, ts e ≤ now) (hts : ts s = now) :
    (∀ e ∈ pushHist ts arr now s, now - METRIC_WINDOW_MS ≤ ts e) ∧
    (pushHist ts arr now s).Pairwise (fun a b => ts a ≤ ts b) ∧
    (∀ e ∈ pushHist ts arr now s, ts e ≤ now) := by
  have hpair : (arr ++ [s]).Pairwise (fun a b => ts a ≤ ts b) := by
    rw [List.pairwise_append]
    refine ⟨hsort, by simp, ?_⟩
    intro a ha b hb
    simp at hb
    subst hb
    rw [hts]
    exact hub a ha
  refine ⟨?_, ?_, ?_⟩
  · intro e he
    exact dropWhile_all_ge ts (now - METRIC_WINDOW_MS) (arr ++ [s]) hpair e he
  · exact hpair.sublist (List.dropWhile_sublist _)
  · intro e he
    have hm := mem_of_mem_dropWhile he
    simp at hm
    rcases hm with hm | rfl
    · exact hub e hm
    · omega

set_option maxRecDepth 4000 in
/-- `pushHist_window_step` specialized to the telemetry handler's ingest (the
stored record's `ts` is the clock reading itself). -/
theorem telemetryIngest_window_step (hist : List TelemetrySample) (now : Nat)
    (d : TelemetryIn)
    (hsort : hist.Pairwise (fun a b => a.ts ≤ b.ts))
    (hub : ∀ e ∈ hist, e.ts ≤ now) :
    (∀ e ∈ telemetryIngest hist now d, now - METRIC_WINDOW_MS ≤ e.ts) ∧
    (telemetryIngest hist now d).Pairwise (fun a b => a.ts ≤ b.ts) ∧
    (∀ e ∈ telemetryIngest hist now d, e.ts ≤ now) := by
  have h := pushHist_window_step (fun e => e.ts) hist now
    { ts := now, connType := d.connType, wifiMbps := d.wifiMbps,
      netDownMbps := d.netDownMbps, netUpMbps := d.netUpMbps,
      batteryPct := d.batteryPct, cpuPct := d.cpuPct,
      memUsedMb := d.memUsedMb, memTotalMb := d.memTotalMb,
      deviceTempC := d.deviceTempC } hsort hub rfl
  simpa [telemetryIngest] using h

/-- Folding a telemetry ingest sequence with nondecreasing clock readings
keeps the series sorted and bounded by the latest reading. -/
theorem runTelemetry_invariant (items : List (Nat × TelemetryIn))
    (hmono : items.Chain' (fun a b => a.1 ≤ b.1)) :
    (runTelemetry items).Pairwise (fun a b => a.ts ≤ b.ts) ∧
    ∀ e ∈ runTelemetry items, ∀ it, items.getLast? = some it → e.ts ≤ it.1 := by
  induction items using List.reverseRecOn with
  | nil => simp [runTelemetry]
  | append_singleton items x ih =>
      have hrun : runTelemetry (items ++ [x]) =
          telemetryIngest (runTelemetry items) x.1 x.2 := by
        unfold runTelemetry
        rw [List.foldl_append]
        rfl
      have hmono' : items.Chain' (fun a b => a.1 ≤ b.1) :=
        (List.chain'_append.mp hmono).1
      have hlink : ∀ it, items.getLast? = some it → it.1 ≤ x.1 := by
        intro it hit
        exact (List.chain'_append.mp hmono).2.2 it hit x (by simp)
      obtain ⟨ihsort, ihub⟩ := ih hmono'
      have hub : ∀ e ∈ runTelemetry items, e.ts ≤ x.1 := by
        intro e he
        cases hl : items.getLast? with
        | none =>
            rw [List.getLast?_eq_none_iff] at hl
            subst hl
            simp [runTelemetry] at he
        | some it => exact le_trans (ihub e he it hl) (hlink it hl)
      have hstep := telemetryIngest_window_step (runTelemetry items) x.1 x.2
        ihsort hub
      rw [hrun]
      refine ⟨hstep.2.1, ?_⟩
      intro e he it hit
      rw [List.getLast?_concat] at hit
      simp at hit
      subst hit
      exact hstep.2.2 e he

/-- C5: for any sequence of telemetry ingests with nondecreasing server clock
readings (the handler stamps `ts := Date.now()`), after the last ingest the
series holds no entry older than the sliding 24-hour window — however wide a
time span the sequence covers; retention is bounded by the window, not by an
entry count. -/
theorem telemetry_window_retention (items : List (Nat × TelemetryIn))
    (hmono : items.Chain' (fun a b => a.1 ≤ b.1))
    (it : Nat × TelemetryIn) (hlast : items.getLast? = some it) :
    ∀ e ∈ runTelemetry items, ¬ (e.ts < it.1 - METRIC_WINDOW_MS) := by
  induction items using List.reverseRecOn with
  | nil => simp at hlast
  | append_singleton items x _ =>
      have hrun : runTelemetry (items ++ [x]) =
          telemetryIngest (runTelemetry items) x.1 x.2 := by
        unfold runTelemetry
        rw [List.foldl_append]
        rfl
      rw [List.getLast?_concat] at hlast
      simp at hlast
      subst hlast
      have hmono' : items.Chain' (fun a b => a.1 ≤ b.1) :=
        (List.chain'_append.mp hmono).1
      have hlink : ∀ j, items.getLast? = some j → j.1 ≤ x.1 := by
        intro j hj
        exact (List.chain'_append.mp hmono).2.2 j hj x (by simp)
      obtain ⟨ihsort, ihub⟩ := runTelemetry_invariant items hmono'
      have hub : ∀ e ∈ runTelemetry items, e.ts ≤ x.1 := by
        intro e he
        cases hl : items.getLast? with
        | none =>
            rw [List.getLast?_eq_none_iff] at hl
            subst hl
            simp [runTelemetry] at he
        | some j => exact le_trans (ihub e he j hl) (hlink j hl)
      have hstep := telemetryIngest_window_step (runTelemetry items) x.1 x.2
        ihsort hub
      intro e he
      rw [hrun] at he
      have := hstep.1 e he
      omega

/-- C5 witness: two ingests 10⁸ ms (≈ 27.8 h) apart; after the second, the
stale first entry is gone and every surviving entry is inside the window. -/
theorem telemetry_window_retention_witness :
    ([((0 : Nat), telIn0), (100000000, telIn0)].Chain'
        (fun a b => a.1 ≤ b.1)) ∧
    ([((0 : Nat), telIn0), (100000000, telIn0)].getLast?
        = some (100000000, telIn0)) ∧
    ∀ e ∈ runTelemetry [(0, telIn0), (100000000, telIn0)],
      ¬ (e.ts < (100000000 : Nat) - METRIC_WINDOW_MS) :=
  ⟨by simp [List.chain'_pair], by simp,
   telemetry_window_retention [(0, telIn0), (100000000, telIn0)]
     (by simp [List.chain'_pair]) (100000000, telIn0) (by simp)⟩

/-! ## C6: bounded outbox, FIFO flush on reconnect -/

/-- Folding the outbox enqueue step over a send sequence from an empty queue
keeps exactly the most recent `OUTBOX_MAX` sends, in original order. -/
theorem outboxEnq_fold {α : Type} (msgs : List (String × α)) :
    msgs.foldl outboxEnq [] = msgs.drop (msgs.length - OUTBOX_MAX) := by
  induction msgs using List.reverseRecOn with
  | nil => simp
  | append_singleton ms x ih =>
      have hM : OUTBOX_MAX = 200 := rfl
      rw [List.foldl_append]
      simp only [List.foldl_cons, List.foldl_nil]
      rw [ih]
      unfold outboxEnq
      by_cases hlen : ms.length < OUTBOX_MAX
      · have h0 : ms.length - OUTBOX_MAX = 0 := by omega
        have h0' : (ms ++ [x]).length - OUTBOX_MAX = 0 := by
          simp only [List.length_append, List.length_cons, List.length_nil]
          omega
        rw [h0, h0', List.drop_zero, List.drop_zero]
        rw [if_pos (by simpa using hlen)]
      · have hq : (ms.drop (ms.length - OUTBOX_MAX)).length = OUTBOX_MAX := by
          rw [List.length_drop]
          omega
        rw [if_neg (by omega)]
        rw [List.tail_drop]
        have hle : (ms ++ [x]).length - OUTBOX_MAX ≤ ms.length := by
          simp only [List.length_append, List.length_cons, List.length_nil]
          omega
        rw [List.drop_append_of_le_length hle]
        have heq : ms.length - OUTBOX_MAX + 1 = (ms ++ [x]).length - OUTBOX_MAX := by
          simp only [List.length_append, List.length_cons, List.length_nil]
          omega
        rw [heq]

/-- While disconnected, a send sequence emits nothing and only accumulates
into the outbox via `outboxEnq`; the connectivity flag stays false. -/
theorem clientSendAll_disconnected {α : Type} (msgs : List (String × α)) :
    ∀ (st : ClientState α), st.isConnected = false →
      (clientSendAll st msgs).1 =
        { isConnected := false, outbox := msgs.foldl outboxEnq st.outbox } ∧
      (clientSendAll st msgs).2 = [] := by
  suffices h : ∀ (st : ClientState α) (acc : List (CEmit α)),
      st.isConnected = false →
      msgs.foldl (fun a m => let r := clientSend a.1 m.1 m.2; (r.1, a.2 ++ r.2))
          (st, acc) =
        ({ isConnected := false, outbox := msgs.foldl outboxEnq st.outbox }, acc) by
    intro st hst
    have := h st [] hst
    unfold clientSendAll
    rw [this]
    exact ⟨rfl, rfl⟩
  induction msgs with
  | nil =>
      intro st acc hst
      obtain ⟨c, q⟩ := st
      simp at hst
      subst hst
      simp
  | cons m ms ih =>
      intro st acc hst
      simp only [List.foldl_cons]
      have hsend : clientSend st m.1 m.2 =
          ({ isConnected := st.isConnected, outbox := outboxEnq st.outbox (m.1, m.2) },
           []) := by
        unfold clientSend
        rw [if_neg (by simp [hst])]
      rw [hsend]
      have := ih { isConnected := st.isConnected, outbox := outboxEnq st.outbox (m.1, m.2) }
        (acc ++ []) (by simpa using hst)
      simpa [hst] using this

/-- While connected, every send is emitted immediately and the state is
untouched. -/
theorem clientSendAll_connected {α : Type} (msgs : List (String × α)) :
    ∀ (st : ClientState α) , st.isConnected = true →
      (clientSendAll st msgs).1 = st ∧
      (clientSendAll st msgs).2 = msgs.map (fun m => CEmit.msg m.1 m.2) := by
  suffices h : ∀ (st : ClientState α) (acc : List (CEmit α)),
      st.isConnected = true →
      msgs.foldl (fun a m => let r := clientSend a.1 m.1 m.2; (r.1, a.2 ++ r.2))
          (st, acc) =
        (st, acc ++ msgs.map (fun m => CEmit.msg m.1 m.2)) by
    intro st hst
    have := h st [] hst
    unfold clientSendAll
    rw [this]
    exact ⟨rfl, by simp⟩
  induction msgs with
  | nil => intro st acc hst; simp
  | cons m ms ih =>
      intro st acc hst
      simp only [List.foldl_cons]
      have hsend : clientSend st m.1 m.2 = (st, [CEmit.msg m.1 m.2]) := by
        unfold clientSend
        rw [if_pos hst]
      rw [hsend]
      rw [ih st (acc ++ [CEmit.msg m.1 m.2]) hst]
      simp

/-- C6: sending more than 200 messages while disconnected retains exactly the
most recent 200 in original order (oldest dropped first) and emits nothing;
on the transition into Connected the retained sends are flushed in FIFO order
— after the identity re-announcement handshake, and strictly before any new
application send issued from the `onConnected` callback in the same tick. -/
theorem outbox_fifo_flush {α : Type} (msgs appSends : List (String × α))
    (deviceName xrId : String) (hlen : 200 < msgs.length) :
    (clientSendAll ({} : ClientState α) msgs).1.outbox
        = msgs.drop (msgs.length - 200) ∧
    (clientSendAll ({} : ClientState α) msgs).2 = [] ∧
    clientConnectTick (clientSendAll ({} : ClientState α) msgs).1
        deviceName xrId appSends =
      ({ isConnected := true, outbox := [] },
       [CEmit.joinE xrId, CEmit.identifyE deviceName xrId, CEmit.requestDeviceList]
         ++ (msgs.drop (msgs.length - 200)).map (fun m => CEmit.msg m.1 m.2)
         ++ appSends.map (fun m => CEmit.msg m.1 m.2)) := by
  obtain ⟨hst, hemit⟩ := clientSendAll_disconnected msgs ({} : ClientState α) rfl
  have hout : (clientSendAll ({} : ClientState α) msgs).1.outbox
      = msgs.drop (msgs.length - 200) := by
    rw [hst]
    simpa [OUTBOX_MAX] using outboxEnq_fold msgs
  refine ⟨hout, hemit, ?_⟩
  obtain ⟨hc, he⟩ := clientSendAll_connected appSends
    ({ isConnected := true, outbox := [] } : ClientState α) rfl
  show ((clientSendAll ({ isConnected := true, outbox := [] } : ClientState α)
            appSends).1,
        ([CEmit.joinE xrId, CEmit.identifyE deviceName xrId,
          CEmit.requestDeviceList]
          ++ ((clientSendAll ({} : ClientState α) msgs).1.outbox).map
               (fun m => CEmit.msg m.1 m.2))
          ++ (clientSendAll ({ isConnected := true, outbox := [] } : ClientState α)
                appSends).2) = _
  rw [hc, he, hout]

/-- C6 witness: 201 one-byte sends while disconnected keep sends 1..200; the
flush replays exactly those, then the fresh application send. -/
theorem outbox_fifo_flush_witness :
    200 < ((List.range 201).map (fun i => (("m" : String), i))).length ∧
    (clientSendAll ({} : ClientState Nat)
        ((List.range 201).map (fun i => ("m", i)))).1.outbox
      = ((List.range 201).map (fun i => ("m", i))).drop
          (((List.range 201).map (fun i => ("m", i))).length - 200) :=
  ⟨by simp,
   (outbox_fifo_flush ((List.range 201).map (fun i => ("m", i))) [("s", 7)]
      "Dock" "XR-1234" (by simp)).1⟩

/-! ## C1 / C4: duplicate-identity arbitration -/

/-- `tryAutoPair` never touches the registration maps (`clients`,
`onlineDevices`, `desktopClients`) or the quality history. -/
theorem tryAutoPair_preserves_clients (st : ServerState) (deviceId : String) :
    (tryAutoPair st deviceId).1.clients = st.clients := by
  unfold tryAutoPair
  repeat' split
  all_goals simp [joinRoom, setSockData, roomMembers]
  all_goals repeat' split
  all_goals rfl

/-- `tryAutoPair` either emits nothing or exactly a `room_joined` to the pair
room followed by a `room_update` broadcast. -/
theorem tryAutoPair_trace (st : ServerState) (deviceId : String) :
    (tryAutoPair st deviceId).2.1 = [] ∨
    ∃ roomId members pairs,
      (tryAutoPair st deviceId).2.1 =
        [Action.emitToRoom roomId "room_joined" (Payload.roomJoined roomId members),
         Action.emitAll "room_update" (Payload.roomUpdate pairs)] := by
  unfold tryAutoPair
  repeat' split
  all_goals dsimp only
  all_goals repeat' split
  all_goals first
    | exact Or.inl rfl
    | exact Or.inr ⟨_, _, _, rfl⟩

/-- Every action `tryAutoPair` emits is a `room_joined` or `room_update`. -/
theorem tryAutoPair_actions (st : ServerState) (deviceId : String) :
    ∀ a ∈ (tryAutoPair st deviceId).2.1,
      a.eventName = some "room_joined" ∨ a.eventName = some "room_update" := by
  intro a ha
  rcases tryAutoPair_trace st deviceId with h | ⟨roomId, members, pairs, h⟩ <;>
    rw [h] at ha
  · simp at ha
  · simp at ha
    rcases ha with rfl | rfl <;> simp [Action.eventName]

/-- C1: when the fetched cluster snapshot shows a live holder of the claimed
identity on another connection, `identify` emits a depopulated presence
snapshot, then `duplicate_id` carrying the identity and the holder's info to
the claimant, and disconnects the claimant — in that order — while the server
state (the holder's registration included) is left completely unchanged and
the holder is not disconnected. -/
theorem identify_duplicate_rejected (st : ServerState) (sid : Nat)
    (deviceName xrId : String) (snapshot : List (Nat × SockData)) (now : Nat)
    (holder : Nat × SockData)
    (hh : snapshot.find? (fun s => s.1 ≠ sid ∧ s.2.xrId = some xrId)
            = some holder) :
    identify st sid deviceName xrId snapshot now =
      (st,
       [Action.emitAll "device_list" (Payload.deviceList []),
        Action.emitToSocket sid "duplicate_id"
          (Payload.duplicateId xrId (holder.2.deviceName.getD "Unknown")
            holder.2.connectedAt holder.1),
        Action.disconnect sid]) ∧
    holder.1 ≠ sid ∧
    Action.disconnect holder.1 ∉ (identify st sid deviceName xrId snapshot now).2 := by
  have hpred := List.find?_some hh
  simp at hpred
  refine ⟨?_, hpred.1, ?_⟩
  · unfold identify
    rw [hh]
  · unfold identify
    rw [hh]
    simp [hpred.1]

/-- C1 witness: socket 2 claims `X1` while socket 1 (visible in the snapshot)
already holds it. -/
theorem identify_duplicate_rejected_witness :
    (dupState.sockets.find? (fun s => s.1 ≠ 2 ∧ s.2.xrId = some "X1")
        = some (1, { xrId := some "X1", deviceName := some "Headset",
                     connectedAt := some 5 })) ∧
    (identify dupState 2 "Desk" "X1" dupState.sockets 99 =
      (dupState,
       [Action.emitAll "device_list" (Payload.deviceList []),
        Action.emitToSocket 2 "duplicate_id"
          (Payload.duplicateId "X1" "Headset" (some 5) 1),
        Action.disconnect 2]) ∧
     (1 : Nat) ≠ 2 ∧
     Action.disconnect 1 ∉ (identify dupState 2 "Desk" "X1" dupState.sockets 99).2) :=
  ⟨by decide,
   identify_duplicate_rejected dupState 2 "Desk" "X1" dupState.sockets 99
     (1, { xrId := some "X1", deviceName := some "Headset", connectedAt := some 5 })
     (by decide)⟩

/-- When the snapshot shows no other holder, `identify` accepts the claim and
registers the claimant under the identity in `clients`. -/
theorem identify_accept_registers (st : ServerState) (sid : Nat)
    (deviceName xrId : String) (snapshot : List (Nat × SockData)) (now : Nat)
    (hfind : snapshot.find? (fun s => s.1 ≠ sid ∧ s.2.xrId = some xrId) = none) :
    alGet (identify st sid deviceName xrId snapshot now).1.clients xrId
      = some sid := by
  unfold identify
  rw [hfind]
  dsimp only
  split
  · split
    · simp [alGet_alSet]
    · simp [alGet_alSet]
  · dsimp only
    rw [tryAutoPair_preserves_clients]
    split
    · simp [alGet_alSet]
    · simp [alGet_alSet]

/-- When the snapshot shows no other holder, every action `identify` emits is
a presence/room broadcast — never `duplicate_id`, never a disconnect. -/
theorem identify_accept_actions (st : ServerState) (sid : Nat)
    (deviceName xrId : String) (snapshot : List (Nat × SockData)) (now : Nat)
    (hfind : snapshot.find? (fun s => s.1 ≠ sid ∧ s.2.xrId = some xrId) = none) :
    ∀ a ∈ (identify st sid deviceName xrId snapshot now).2,
      a.eventName = some "device_list" ∨ a.eventName = some "room_joined" ∨
      a.eventName = some "room_update" := by
  have htrace : ∃ p1 p2 rest,
      (identify st sid deviceName xrId snapshot now).2 =
        Action.emitToSocket sid "device_list" p1 ::
          Action.emitAll "device_list" p2 :: rest ∧
      (rest = [] ∨
       ∃ roomId members pairs,
         rest = [Action.emitToRoom roomId "room_joined"
                   (Payload.roomJoined roomId members),
                 Action.emitAll "room_update" (Payload.roomUpdate pairs)]) := by
    unfold identify
    rw [hfind]
    dsimp only
    split
    · exact ⟨_, _, [], rfl, Or.inl rfl⟩
    · dsimp only
      rcases tryAutoPair_trace
          (if isDesktopName deviceName ∨ xrId = "XR-1238"
           then _ else _) xrId with h | ⟨roomId, members, pairs, h⟩
      · exact ⟨_, _, [], by rw [h]; rfl, Or.inl rfl⟩
      · exact ⟨_, _,
          [Action.emitToRoom roomId "room_joined" (Payload.roomJoined roomId members),
           Action.emitAll "room_update" (Payload.roomUpdate pairs)],
          by rw [h]; rfl, Or.inr ⟨roomId, members, pairs, rfl⟩⟩
  intro a ha
  obtain ⟨p1, p2, rest, heq, hrest⟩ := htrace
  rw [heq] at ha
  simp at ha
  rcases ha with rfl | rfl | ha
  · simp [Action.eventName]
  · simp [Action.eventName]
  · rcases hrest with rfl | ⟨roomId, members, pairs, rfl⟩
    · simp at ha
    · simp at ha
      rcases ha with rfl | rfl <;> simp [Action.eventName]

/-- C4: when the cluster fan-out misses its 750 ms guard, the snapshot is the
local socket set only; an identity claim then proceeds on that local-only view
and is accepted — registered to the claimant, no `duplicate_id`, no disconnect
— even though an undetected holder of the same identity lives on a remote
process. -/
theorem arbiter_timeout_local_fallback (st : ServerState) (sid : Nat)
    (deviceName xrId : String) (localSockets : List (Nat × SockData)) (now : Nat)
    (remoteHolder : Nat × SockData)
    (hremote : remoteHolder.2.xrId = some xrId)
    (hlocal : ∀ s ∈ localSockets, s.2.xrId ≠ some xrId) :
    safeFetchSockets localSockets none = localSockets ∧
    alGet (identify st sid deviceName xrId
            (safeFetchSockets localSockets none) now).1.clients xrId = some sid ∧
    (∀ a ∈ (identify st sid deviceName xrId
            (safeFetchSockets localSockets none) now).2,
       a.eventName ≠ some "duplicate_id") ∧
    Action.disconnect sid ∉
      (identify st sid deviceName xrId (safeFetchSockets localSockets none) now).2 := by
  have hsnap : safeFetchSockets localSockets none = localSockets := rfl
  have hfind : localSockets.find? (fun s => s.1 ≠ sid ∧ s.2.xrId = some xrId)
      = none := by
    rw [List.find?_eq_none]
    intro s hs
    simp
    intro _
    exact hlocal s hs
  refine ⟨hsnap, ?_, ?_, ?_⟩
  · rw [hsnap]
    exact identify_accept_registers st sid deviceName xrId localSockets now hfind
  · rw [hsnap]
    intro a ha
    rcases identify_accept_actions st sid deviceName xrId localSockets now hfind
        a ha with h | h | h <;> simp [h]
  · rw [hsnap]
    intro hmem
    rcases identify_accept_actions st sid deviceName xrId localSockets now hfind
        _ hmem with h | h | h <;> simp [Action.eventName] at h

/-- C4 witness: the fan-out times out; the snapshot degrades to the local-only
socket set, and socket 2's claim of `X1` succeeds although socket 9 on a
remote process holds `X1`. -/
theorem arbiter_timeout_local_fallback_witness :
    ((9, ({ xrId := some "X1" } : SockData)) : Nat × SockData).2.xrId
        = some "X1" ∧
    (∀ s ∈ timeoutLocal, s.2.xrId ≠ some "X1") ∧
    (safeFetchSockets timeoutLocal none = timeoutLocal ∧
     alGet (identify timeoutState 2 "Desk" "X1"
             (safeFetchSockets timeoutLocal none) 99).1.clients "X1" = some 2 ∧
     (∀ a ∈ (identify timeoutState 2 "Desk" "X1"
             (safeFetchSockets timeoutLocal none) 99).2,
        a.eventName ≠ some "duplicate_id") ∧
     Action.disconnect 2 ∉
       (identify timeoutState 2 "Desk" "X1"
         (safeFetchSockets timeoutLocal none) 99).2) :=
  ⟨by decide, by decide,
   arbiter_timeout_local_fallback timeoutState 2 "Desk" "X1" timeoutLocal 99
     (9, { xrId := some "X1" }) (by decide) (by decide)⟩

/-! ## C2: pair-room capacity -/

/-- C2 counterexample: the claimed invariant "a pair room never has more than
2 member connections" fails.  Three sockets set allow-listed identities via the
unguarded `join` event (socket 3 re-using socket 1's identity) and each calls
`pair_with`; `pair_with` checks only the allow-list, not capacity, so the pair
room ends up with 3 members. -/
theorem pair_room_capacity_counterexample :
    isPairAllowed "XR-1234" "XR-1238" = true ∧
    2 < (roomMembers overfullState (getRoomIdForPair "XR-1234" "XR-1238")).length := by
  decide

/-- C2 amended: auto-pairing is a silent no-op when the pair room already has
2 members — `tryAutoPair` returns `false`, changes nothing and emits nothing
(re-pairing an occupied pair is a no-op); the capacity check exists only on the
auto-pairing path, not in `pair_with`. -/
theorem tryAutoPair_full_room_noop (st : ServerState)
    (deviceId partnerId : String)
    (hp : pairingsMap deviceId = some partnerId)
    (hfull : 2 ≤ (roomMembers st (getRoomIdForPair deviceId partnerId)).length) :
    tryAutoPair st deviceId = (st, [], false) := by
  unfold tryAutoPair
  rw [hp]
  dsimp only
  cases h1 : alGet st.clients deviceId with
  | none => rfl
  | some meSid =>
      cases h2 : alGet st.clients partnerId with
      | none => rfl
      | some partnerSid =>
          dsimp only
          split
          · rfl
          · rfl

/-- C2 amended witness: auto-pairing against an already-occupied pair room is
a silent no-op. -/
theorem tryAutoPair_full_room_noop_witness :
    pairingsMap "XR-1234" = some "XR-1238" ∧
    2 ≤ (roomMembers fullRoomState (getRoomIdForPair "XR-1234" "XR-1238")).length ∧
    tryAutoPair fullRoomState "XR-1234" = (fullRoomState, [], false) :=
  ⟨by decide, by decide,
   tryAutoPair_full_room_noop fullRoomState "XR-1234" "XR-1238" (by decide)
     (by decide)⟩

/-! ## C3: peer-left before structural room teardown -/

/-- The `disconnect` cleanup never touches the room table. -/
theorem disconnectCleanup_rooms (st : ServerState) (sid : Nat) :
    (disconnectCleanup st sid).1.rooms = st.rooms := by
  unfold disconnectCleanup
  dsimp only
  split
  · rfl
  · split <;> rfl

/-- Structural teardown removes exactly the closing socket from each room. -/
theorem roomMembers_removeFromAllRooms (st : ServerState) (sid : Nat)
    (roomId : String) :
    roomMembers (removeFromAllRooms st sid) roomId
      = (roomMembers st roomId).filter (fun m => m ≠ sid) := by
  unfold roomMembers removeFromAllRooms
  dsimp only
  rw [alGet_map_val st.rooms (fun ms => ms.filter (fun m => m ≠ sid)) roomId]
  cases alGet st.rooms roomId <;> simp

/-- C3: when a member of a pair room disconnects, the close trace emits
`peer_left { xrId, roomId }` to the rest of the room strictly before the
structural removal of the socket's room memberships (`leaveAllRooms`), and
after the full sequence the socket is indeed no longer a member. -/
theorem peer_left_before_room_teardown (st : ServerState) (sid : Nat)
    (xrId roomId : String)
    (hx : (getSockData st sid).bind (fun d => d.xrId) = some xrId)
    (hp : strStartsWith roomId "pair:" = true)
    (hm : sid ∈ roomMembers st roomId) :
    ∃ pre post,
      (fullDisconnect st sid).2 = pre ++ Action.leaveAllRooms sid :: post ∧
      Action.emitToRoomExcept sid roomId "peer_left"
        (Payload.peerLeft xrId roomId) ∈ pre ∧
      sid ∉ roomMembers (fullDisconnect st sid).1 roomId := by
  have hmemr : roomId ∈ socketRooms st sid := by
    unfold roomMembers at hm
    cases hg : alGet st.rooms roomId with
    | none => rw [hg] at hm; simp at hm
    | some ms =>
        rw [hg] at hm
        simp at hm
        unfold socketRooms
        refine List.mem_map.mpr ⟨(roomId, ms), ?_, rfl⟩
        exact List.mem_filter.mpr ⟨alGet_mem hg, by simpa using hm⟩
  have hact : Action.emitToRoomExcept sid roomId "peer_left"
      (Payload.peerLeft xrId roomId) ∈ disconnectingActions st sid := by
    unfold disconnectingActions
    rw [hx]
    refine List.mem_filterMap.mpr ⟨roomId, hmemr, ?_⟩
    rw [if_pos hp]
  refine ⟨disconnectingActions st sid,
          (disconnectCleanup (removeFromAllRooms st sid) sid).2, rfl, hact, ?_⟩
  have hr : (fullDisconnect st sid).1.rooms = (removeFromAllRooms st sid).rooms := by
    unfold fullDisconnect
    dsimp only
    rw [disconnectCleanup_rooms]
  have hmm := roomMembers_removeFromAllRooms st sid roomId
  have hfull : roomMembers (fullDisconnect st sid).1 roomId
      = (roomMembers st roomId).filter (fun m => m ≠ sid) := by
    unfold roomMembers at hmm ⊢
    rw [hr]
    exact hmm
  rw [hfull]
  simp

/-- C3 witness: socket 1 of the auto-paired pair disconnects; `peer_left` for
`XR-1234` precedes the structural teardown of `pair:XR-1234:XR-1238`. -/
theorem peer_left_before_room_teardown_witness :
    ((getSockData pairedState 1).bind (fun d => d.xrId) = some "XR-1234") ∧
    (strStartsWith "pair:XR-1234:XR-1238" "pair:" = true) ∧
    (1 ∈ roomMembers pairedState "pair:XR-1234:XR-1238") ∧
    (∃ pre post,
      (fullDisconnect pairedState 1).2 = pre ++ Action.leaveAllRooms 1 :: post ∧
      Action.emitToRoomExcept 1 "pair:XR-1234:XR-1238" "peer_left"
        (Payload.peerLeft "XR-1234" "pair:XR-1234:XR-1238") ∈ pre ∧
      1 ∉ roomMembers (fullDisconnect pairedState 1).1 "pair:XR-1234:XR-1238") :=
  ⟨by decide, by decide, by decide,
   peer_left_before_room_teardown pairedState 1 "XR-1234" "pair:XR-1234:XR-1238"
     (by decide) (by decide) (by decide)⟩

/-! ## C7: quality-feed interception -/

/-- C7: a `webrtc_quality_update` envelope on the `signal` channel is
intercepted before generic routing: no action of the handler ever forwards a
`signal` event to any peer or room, and whenever the envelope carries a
`deviceId` and samples, the samples are pushed into that device's quality
history, a `metrics_update` delta goes to the device's metrics room and a
`webrtc_quality_update` broadcast goes to the dashboards. -/
theorem quality_interception (st : ServerState) (sid : Nat) (msg : SignalMsg)
    (now : Nat) (ht : msg.type = "webrtc_quality_update") :
    (∀ a ∈ (signalHandler st sid msg now).2, a.eventName ≠ some "signal") ∧
    ∀ deviceId, msg.deviceId = some deviceId → msg.samples ≠ [] →
      (signalHandler st sid msg now).1.qualityHist =
        alSet st.qualityHist deviceId
          (msg.samples.foldl (fun arr s => pushHist (fun e => e.ts) arr now s)
            ((alGet st.qualityHist deviceId).getD [])) ∧
      (signalHandler st sid msg now).2 =
        [Action.emitToRoom ("metrics:" ++ deviceId) "metrics_update"
           (Payload.metricsUpdate deviceId msg.samples),
         Action.emitAll "webrtc_quality_update"
           (Payload.qualityBroadcast deviceId msg.samples)] := by
  constructor
  · intro a ha
    unfold signalHandler at ha
    rw [if_pos ht] at ha
    split at ha
    · split at ha
      · simp at ha
        rcases ha with rfl | rfl <;> simp [Action.eventName]
      · simp at ha
    · simp at ha
  · intro deviceId hd hs
    refine ⟨?_, ?_⟩ <;> simp [signalHandler, ht, hd, hs]

/-- C7 witness: one quality sample for `XR-1234` is stored and re-broadcast,
and nothing is forwarded as a `signal`. -/
theorem quality_interception_witness :
    qualityMsg.type = "webrtc_quality_update" ∧
    ((∀ a ∈ (signalHandler spoofState 1 qualityMsg 60).2,
        a.eventName ≠ some "signal") ∧
     ∀ deviceId, qualityMsg.deviceId = some deviceId → qualityMsg.samples ≠ [] →
       (signalHandler spoofState 1 qualityMsg 60).1.qualityHist =
         alSet spoofState.qualityHist deviceId
           (qualityMsg.samples.foldl
             (fun arr s => pushHist (fun e => e.ts) arr 60 s)
             ((alGet spoofState.qualityHist deviceId).getD [])) ∧
       (signalHandler spoofState 1 qualityMsg 60).2 =
         [Action.emitToRoom ("metrics:" ++ deviceId) "metrics_update"
            (Payload.metricsUpdate deviceId qualityMsg.samples),
          Action.emitAll "webrtc_quality_update"
            (Payload.qualityBroadcast deviceId qualityMsg.samples)]) :=
  ⟨by decide, quality_interception spoofState 1 qualityMsg 60 (by decide)⟩

/-! ## C8: the `from` field of routed signal envelopes -/

/-- C8 counterexample: the claim that routed envelopes carry a server-stamped
`from` fails.  Socket 1 is registered as `XR-1234` but routes an offer whose
payload claims `from = "SPOOF"`; the recipients receive `"SPOOF"` — the
client-supplied value, not the registered identity. -/
theorem signal_from_not_stamped_counterexample :
    ((getSockData spoofState 1).bind (fun d => d.xrId) = some "XR-1234") ∧
    (signalHandler spoofState 1 spoofMsg 0).2 =
      [Action.emitToRoom (roomOf "XR-1238") "signal"
        (Payload.signalFwd "offer" (some "SPOOF") "")] ∧
    (some "SPOOF" : Option String) ≠ some "XR-1234" := by
  decide

/-- C8 amended: for every non-quality envelope routed through the `signal`
channel, the `from` delivered to recipients is passed through unchanged from
the client payload (the server performs no stamping from the sending
connection's registered identity). -/
theorem signal_from_passthrough (st : ServerState) (sid : Nat) (msg : SignalMsg)
    (now : Nat) (ht : msg.type ≠ "webrtc_quality_update") :
    ∀ a ∈ (signalHandler st sid msg now).2, a.eventName = some "signal" →
      a.payloadOf = some (Payload.signalFwd msg.type msg.fromId msg.data) := by
  intro a ha hev
  unfold signalHandler at ha
  rw [if_neg ht] at ha
  split at ha
  · simp at ha
    subst ha
    rfl
  · split at ha
    · simp at ha
      subst ha
      rfl
    · simp at ha
      subst ha
      simp [Action.eventName] at hev

/-- C8 amended witness: the spoofed `from` travels through unchanged. -/
theorem signal_from_passthrough_witness :
    spoofMsg.type ≠ "webrtc_quality_update" ∧
    ∀ a ∈ (signalHandler spoofState 1 spoofMsg 0).2,
      a.eventName = some "signal" →
      a.payloadOf = some (Payload.signalFwd spoofMsg.type spoofMsg.fromId
                            spoofMsg.data) :=
  ⟨by decide, signal_from_passthrough spoofState 1 spoofMsg 0 (by decide)⟩

/-! ## C9: registration conflict handling and unregister idempotence -/

/-- C9 counterexample: registering an identity already present in the same
process through the `join` event does not fail with a local identity-conflict
error — the existing registration (socket 1) is silently replaced by socket 2,
and the handler emits only `device_list` updates, no error of any kind. -/
theorem join_silent_replace_counterexample :
    alGet replacedState.clients "XR-1234" = some 1 ∧
    alGet (joinHandler replacedState 2 "XR-1234").1.clients "XR-1234" = some 2 ∧
    ∀ a ∈ (joinHandler replacedState 2 "XR-1234").2,
      a.eventName = some "device_list" := by
  decide

/-- C9 amended: the `join` registration path performs no conflict check — it
always (re)binds the identity to the joining socket and emits only
`device_list` presence updates (duplicate rejection lives solely in
`identify`); and unregistering on disconnect is idempotent: a second cleanup
for the same socket changes nothing. -/
theorem join_replaces_and_unregister_idempotent (st : ServerState) (sid : Nat)
    (xrId : String) :
    alGet (joinHandler st sid xrId).1.clients xrId = some sid ∧
    (∀ a ∈ (joinHandler st sid xrId).2, a.eventName = some "device_list") ∧
    ∀ sid2 : Nat, (disconnectCleanup (disconnectCleanup st sid2).1 sid2).1
        = (disconnectCleanup st sid2).1 := by
  refine ⟨?_, ?_, ?_⟩
  · unfold joinHandler
    dsimp only
    exact alGet_alSet _ _ _
  · intro a ha
    unfold joinHandler at ha
    simp at ha
    rcases ha with rfl | rfl <;> rfl
  · intro sid2
    have hs : (disconnectCleanup st sid2).1.sockets = alDel st.sockets sid2 := by
      unfold disconnectCleanup
      dsimp only
      split
      · rfl
      · split <;> rfl
    have hget : getSockData (disconnectCleanup st sid2).1 sid2 = none := by
      unfold getSockData
      rw [hs]
      exact alGet_alDel _ _
    set st2 := (disconnectCleanup st sid2).1 with hst2
    have hfilter : st2.sockets.filter (fun s => s.1 ≠ sid2) = st2.sockets := by
      rw [hs]
      exact alDel_alDel st.sockets sid2
    unfold disconnectCleanup
    rw [hget]
    dsimp only [Option.bind]
    rw [hfilter]

/-- C9 amended witness: the general statement at the concrete two-socket
state. -/
theorem join_replaces_and_unregister_idempotent_witness :
    alGet (joinHandler replacedState 2 "XR-1234").1.clients "XR-1234" = some 2 ∧
    (∀ a ∈ (joinHandler replacedState 2 "XR-1234").2,
       a.eventName = some "device_list") ∧
    ∀ sid2 : Nat,
      (disconnectCleanup (disconnectCleanup replacedState sid2).1 sid2).1
        = (disconnectCleanup replacedState sid2).1 :=
  join_replaces_and_unregister_idempotent replacedState 2 "XR-1234"

end XRHub
